import Mathlib

/-!
Verification of the perceval-mozilla Crates.io backend
(`perceval/backends/mozilla/crates.py`).

The Python source is shallowly embedded below. Conventions used throughout:

* JSON mappings (Python dicts) are association lists `Item`.
* Datetime instants are modelled as integers (`Int`); the external
  grimoirelab toolkit (`str_to_datetime`, `datetime.timestamp()`, Python
  `str`) is an abstract `TimeToolkit` parameter, since those collaborators
  are out of scope of this repository.  Converting a datetime to UTC
  re-expresses the same instant without changing it, so `datetime_to_utc`
  is the identity on instants.
* The HTTP transport (`requests.get`) is modelled as a function from the
  attempt index to the attempt's result: either a connection-level failure
  (raising `requests.exceptions.ConnectionError`, caught by the retry loop)
  or a delivered response with a status code and a body.
* `while` loops are embedded as structurally recursive functions; the
  pagination loop of `__fetch_items`, which the source does not bound, gets
  an explicit fuel argument, with a distinguished `fuelExhausted` outcome
  so that no behaviour is invented for non-terminating runs.
* Side effects named by the claims (requests issued, seconds slept, bodies
  of error logs, yielded values) are collected into explicit trace
  structures.
-/

/-! ## Module-level constants (crates.py lines 43-46, 227) -/

def CRATES_CATEGORY : String := "crates"

def SUMMARY_CATEGORY : String := "summary"

def SLEEP_TIME : Nat := 300

/-- `CratesClient.MAX_RETRIES` (crates.py line 227). -/
def MAX_RETRIES : Nat := 5

/-! ## JSON values and mappings -/

/-- A JSON leaf value, as far as the claims need to distinguish them. -/
inductive Value where
  | str (s : String)
  | int (n : Int)
  deriving DecidableEq, Repr

/-- Python `str(...)` applied to a field value (e.g. `str(item['id'])`). -/
def pyStr : Value → String
  | Value.str s => s
  | Value.int n => toString n

/-- A decoded JSON object (Python dict), as an association list. -/
abbrev Item := List (String × Value)

/-- Python `key in item` membership test on a dict. -/
def hasKey (item : Item) (k : String) : Bool :=
  (item.lookup k).isSome

/-- Python dict assignment `item[k] = v`: the updated mapping binds `k` to
`v` and leaves every other key unchanged (insertion order is irrelevant to
every claim, so the new binding is put in front). -/
def setKey (item : Item) (k : String) (v : Value) : Item :=
  (k, v) :: item.filter (fun kv => kv.1 != k)

/-! ## External time toolkit (grimoirelab.toolkit.datetime), abstracted -/

/-- Model of the external datetime collaborators.  Instants are integers;
`str_to_datetime` is totalized (the source assumes parses succeed and lets
a parse failure escape as an uncaught exception, a path no claim is
about). -/
structure TimeToolkit where
  str_to_datetime : String → Int
  timestamp : Int → Int
  render : Int → String

/-- `datetime_to_utc`: converting a datetime to UTC preserves the instant
it denotes, so on the instant model it is the identity. -/
def datetime_to_utc (t : Int) : Int := t

/-! ## Crates.metadata_category / metadata_id / metadata_updated_on
(crates.py lines 101-143) -/

/-- `Crates.metadata_category` (lines 134-143): structural test on the
presence of the `num_downloads` key. -/
def metadata_category (item : Item) : String :=
  if hasKey item "num_downloads" then SUMMARY_CATEGORY else CRATES_CATEGORY

/-- `Crates.metadata_id` (lines 101-110).  `none` models the `KeyError`
(or type error) raised when the accessed field is missing or not a
string. -/
def metadata_id (tk : TimeToolkit) (item : Item) : Option String :=
  if metadata_category item = CRATES_CATEGORY then
    (item.lookup "id").map pyStr
  else
    match item.lookup "fetched_on" with
    | some (Value.str ts) => some (tk.render (tk.timestamp (tk.str_to_datetime ts)))
    | _ => none

/-- `Crates.metadata_updated_on` (lines 112-132). -/
def metadata_updated_on (tk : TimeToolkit) (item : Item) : Option Int :=
  let tsField :=
    if metadata_category item = CRATES_CATEGORY then item.lookup "updated_at"
    else item.lookup "fetched_on"
  match tsField with
  | some (Value.str ts) => some (tk.timestamp (tk.str_to_datetime ts))
  | _ => none

/-! ## Crates.fetch dispatch (crates.py lines 68-83) -/

/-- The two fetch modes `Crates.fetch` can delegate to. -/
inductive FetchMode where
  | cratesMode
  | summaryMode
  deriving DecidableEq, Repr

/-- The dispatch of `Crates.fetch` (lines 80-83): `__fetch_crates` exactly
when `category == CRATES_CATEGORY`, otherwise `__fetch_summary`. -/
def fetch_dispatch (category : String) : FetchMode :=
  if category = CRATES_CATEGORY then FetchMode.cratesMode else FetchMode.summaryMode

/-! ## CratesClient.__send_request (crates.py lines 278-297) -/

/-- What one `requests.get` call does: raise a connection error, or
deliver a response with a status code and a body. -/
inductive AttemptResult where
  | connError
  | response (status : Nat) (body : String)
  deriving DecidableEq, Repr

/-- How a `__send_request` call ends.  `connectionFailure` is the
transport-error outcome of the spec's taxonomy; the embedding never
produces it, because every `requests.get` call of the source sits inside
the `try` that catches `ConnectionError`.  `unboundLocalError` models the
`r.raise_for_status()` on line 295 executing with `r` never assigned,
which is what actually happens when all guarded attempts fail. -/
inductive SendOutcome where
  | ok (body : String)
  | httpError (status : Nat) (body : String)
  | connectionFailure
  | unboundLocalError
  deriving DecidableEq, Repr

/-- Observable effects of one `__send_request` call: how many
`requests.get` calls were issued, the seconds slept between them in
order, and how the call ended. -/
structure SendTrace where
  attempts : Nat
  sleeps : List Nat
  outcome : SendOutcome
  deriving DecidableEq, Repr

/-- `requests.Response.raise_for_status`: raises `HTTPError` exactly for
status codes in [400, 600) (client and server errors), carrying the
response; for any other code `__send_request` then returns `r.text`. -/
def raise_for_status (status : Nat) (body : String) : SendOutcome :=
  if 400 ≤ status ∧ status < 600 then SendOutcome.httpError status body
  else SendOutcome.ok body

/-- The retry loop of `__send_request` (lines 281-293).  `retries` is the
loop counter; `remaining` is `MAX_RETRIES - retries`, so `remaining = 0`
is exactly the loop guard `retries < MAX_RETRIES` failing, after which
line 295 runs with `r` unassigned.  On a caught connection error the
source sleeps `sleep_time * retries` seconds (line 292) and then
increments `retries` (line 293). -/
def send_request_go (sleep_time : Nat) (transport : Nat → AttemptResult) :
    Nat → Nat → SendTrace
  | _, 0 => ⟨0, [], SendOutcome.unboundLocalError⟩
  | retries, remaining + 1 =>
    match transport retries with
    | AttemptResult.response st body => ⟨1, [], raise_for_status st body⟩
    | AttemptResult.connError =>
      let rest := send_request_go sleep_time transport (retries + 1) remaining
      ⟨rest.attempts + 1, sleep_time * retries :: rest.sleeps, rest.outcome⟩

/-- `CratesClient.__send_request` (lines 278-297): the loop starts with
`retries = 0` and guard bound `MAX_RETRIES`. -/
def send_request (sleep_time : Nat) (transport : Nat → AttemptResult) : SendTrace :=
  send_request_go sleep_time transport 0 MAX_RETRIES

/-! ## Direct resource calls: CratesClient.crate (crates.py lines 248-254) -/

/-- Observable effects of one direct resource call such as
`CratesClient.crate` (lines 248-254): the underlying `__send_request`
trace, plus the response bodies passed to `logger.error` during the
call.  `summary` (lines 232-238) and `crate_attribute` (lines 256-262)
have the same shape. -/
structure ClientCallTrace where
  send : SendTrace
  errorLog : List String
  deriving DecidableEq, Repr

/-- `CratesClient.crate` (lines 248-254): build the resource path and
forward to `__send_request`, returning its result.  The method wraps
`__send_request` in no try/except and contains no `logger.error` call,
so its error-body log is empty whatever the outcome: an `HttpError`
raised by `raise_for_status` propagates out of it with nothing
logged. -/
def crate_call (sleep_time : Nat) (transport : Nat → AttemptResult) : ClientCallTrace :=
  ⟨send_request sleep_time transport, []⟩

/-! ## CratesClient.__fetch_items (crates.py lines 309-337) -/

/-- The outcome of one page request as `__fetch_items` observes it:
either `__send_request` returned a body which decoded to a page carrying
`len(content['crates'])` entries and `content['meta']['total']`, or it
raised `HTTPError` with the given status and response body. -/
inductive PageResult where
  | success (body : String) (numCrates : Nat) (total : Nat)
  | httpError (status : Nat) (body : String)
  deriving DecidableEq, Repr

/-- How a full consumption of the `__fetch_items` generator ends. -/
inductive FetchItemsOutcome where
  | done
  | raised (status : Nat) (body : String)
  | fuelExhausted
  deriving DecidableEq, Repr

/-- Observable effects of consuming the `__fetch_items` generator: the
page numbers requested in order, the raw bodies yielded in order, the
response bodies passed to `logger.error`, and how it ended. -/
structure FetchItemsTrace where
  requestedPages : List Nat
  yielded : List String
  errorLog : List String
  outcome : FetchItemsOutcome
  deriving DecidableEq, Repr

/-- The `while fetch_data` loop of `__fetch_items` (lines 316-337) with
state `(page, parsed_crates, total_crates)`.  One iteration requests
`page`; on `HTTPError` it logs the response body and re-raises (lines
329-331); otherwise it accumulates `parsed_crates`, sets `total_crates`
from the page's `meta.total` when it is still falsy (`0`), yields the raw
body, increments `page`, and stops when `parsed_crates >= total_crates`
(lines 324-337).  `fuel` bounds the unbounded source loop. -/
def fetch_items_go (srv : Nat → PageResult) : Nat → Nat → Nat → Nat → FetchItemsTrace
  | 0, _, _, _ => ⟨[], [], [], FetchItemsOutcome.fuelExhausted⟩
  | fuel + 1, page, parsed, total =>
    match srv page with
    | PageResult.httpError st body => ⟨[page], [], [body], FetchItemsOutcome.raised st body⟩
    | PageResult.success body n t =>
      let parsed2 := parsed + n
      let total2 := if total = 0 then t else total
      if total2 ≤ parsed2 then
        ⟨[page], [body], [], FetchItemsOutcome.done⟩
      else
        let rest := fetch_items_go srv fuel (page + 1) parsed2 total2
        ⟨page :: rest.requestedPages, body :: rest.yielded, rest.errorLog, rest.outcome⟩

/-- `CratesClient.__fetch_items` (lines 309-337): counters start at
`parsed_crates = 0`, `total_crates = 0`. -/
def fetch_items (srv : Nat → PageResult) (fuel : Nat) (from_page : Nat) : FetchItemsTrace :=
  fetch_items_go srv fuel from_page 0 0

/-! ## Crates.__fetch_summary (crates.py lines 145-152) -/

/-- Observable effects of `__fetch_summary`: how many times
`client.summary()` was called, and either the yielded items (`some`) or
`none` when `json.loads` raised and the generator produced nothing. -/
structure SummaryTrace where
  summaryRequests : Nat
  yielded : Option (List Item)
  deriving DecidableEq, Repr

/-- `Crates.__fetch_summary` (lines 145-152): fetch the summary body once,
decode it, set `summary['fetched_on'] = str(datetime_utcnow())`, yield the
single record, stop.  `jsonLoads` abstracts `json.loads`; `nowStr`
abstracts `str(datetime_utcnow())`. -/
def fetch_summary (jsonLoads : String → Option Item) (nowStr : String)
    (summaryBody : String) : SummaryTrace :=
  match jsonLoads summaryBody with
  | none => ⟨1, none⟩
  | some s => ⟨1, some [setKey s "fetched_on" (Value.str nowStr)]⟩

/-! ## Crates.__fetch_crates and enrichment (crates.py lines 154-221) -/

/-- One decoded entry of `content['crates']` as `__fetch_crates` reads it:
its `id` and its `updated_at` string. -/
structure CrateEntry where
  id : String
  updated_at : String
  deriving DecidableEq, Repr

/-- The remote API as the enrichment code sees it: `crateData cid` is the
decoded `['crate']` object of `GET crates/{cid}`, and `crateAttribute cid
attr` the decoded payload of `GET crates/{cid}/{attr}`. -/
structure CratesServer where
  crateData : String → Item
  crateAttribute : String → String → Value

/-- One HTTP call the enrichment code can issue. -/
inductive ApiCall where
  | crate (cid : String)
  | crateAttribute (cid : String) (attr : String)
  deriving DecidableEq, Repr

/-- The calls one enrichment cycle issues, in source order (lines
171-175): the crate resource, then `owner_team`, `owner_user`,
`downloads`, `versions`. -/
def enrichment_calls (cid : String) : List ApiCall :=
  [ApiCall.crate cid,
   ApiCall.crateAttribute cid "owner_team",
   ApiCall.crateAttribute cid "owner_user",
   ApiCall.crateAttribute cid "downloads",
   ApiCall.crateAttribute cid "versions"]

/-- The enriched record built by lines 171-175: the crate data with the
four sub-resource payloads attached, field names as in the source. -/
structure EnrichedCrate where
  crate : Item
  owner_team_data : Value
  owner_user_data : Value
  version_downloads_data : Value
  versions_data : Value
  deriving DecidableEq, Repr

/-- Lines 171-175: fetch the crate resource and the four sub-resources
for one id and assemble the enriched record. -/
def fetch_crate_enriched (srv : CratesServer) (cid : String) : EnrichedCrate :=
  { crate := srv.crateData cid
    owner_team_data := srv.crateAttribute cid "owner_team"
    owner_user_data := srv.crateAttribute cid "owner_user"
    version_downloads_data := srv.crateAttribute cid "downloads"
    versions_data := srv.crateAttribute cid "versions" }

/-- Observable effects of `__fetch_crates`: the API calls issued for
enrichment, in order, and the records yielded, in order. -/
structure FetchCratesTrace where
  calls : List ApiCall
  yielded : List EnrichedCrate

/-- The inner loop of `__fetch_crates` (lines 164-177) over the decoded
entries of one page: an entry whose parsed `updated_at` is strictly
earlier than the (already UTC-normalized) `from_date` is skipped with
`continue`; any other entry is enriched and yielded. -/
def fetch_crates_entries (tk : TimeToolkit) (srv : CratesServer) (d : Int) :
    List CrateEntry → FetchCratesTrace
  | [] => ⟨[], []⟩
  | e :: rest =>
    if tk.str_to_datetime e.updated_at < d then
      fetch_crates_entries tk srv d rest
    else
      let t := fetch_crates_entries tk srv d rest
      ⟨enrichment_calls e.id ++ t.calls, fetch_crate_enriched srv e.id :: t.yielded⟩

/-- The outer loop of `__fetch_crates` (lines 161-177) over the decoded
pages of the listing. -/
def fetch_crates_pages (tk : TimeToolkit) (srv : CratesServer) (d : Int) :
    List (List CrateEntry) → FetchCratesTrace
  | [] => ⟨[], []⟩
  | pg :: rest =>
    let t1 := fetch_crates_entries tk srv d pg
    let t2 := fetch_crates_pages tk srv d rest
    ⟨t1.calls ++ t2.calls, t1.yielded ++ t2.yielded⟩

/-- `Crates.__fetch_crates` (lines 154-177): normalize `from_date` to UTC
(line 157), then traverse the decoded listing pages. -/
def fetch_crates (tk : TimeToolkit) (srv : CratesServer) (from_date : Int)
    (pages : List (List CrateEntry)) : FetchCratesTrace :=
  fetch_crates_pages tk srv (datetime_to_utc from_date) pages

/-! ## Concrete fixtures used by counterexamples and witnesses -/

/-- A transport whose first two attempts fail with connection errors and
whose third attempt succeeds with status 200. -/
def trTwoFailures : Nat → AttemptResult :=
  fun n => if n < 2 then AttemptResult.connError else AttemptResult.response 200 "payload"

/-- A transport on which every attempt fails with a connection error. -/
def trAllFailures : Nat → AttemptResult := fun _ => AttemptResult.connError

/-- A transport that always delivers an HTTP 304 (a non-2xx status that
`raise_for_status` does not raise for). -/
def trNotModified : Nat → AttemptResult :=
  fun _ => AttemptResult.response 304 "cached body"

/-- A transport that always delivers an HTTP 500. -/
def trServerError : Nat → AttemptResult :=
  fun _ => AttemptResult.response 500 "server error body"

/-- A transport whose first attempt fails with a connection error and
which then succeeds. -/
def trOneFailure : Nat → AttemptResult :=
  fun n => if n = 0 then AttemptResult.connError else AttemptResult.response 200 "recovered"

/-- Decides whether a `__send_request` outcome is a raised `HttpError`. -/
def is_http_error : SendOutcome → Bool
  | SendOutcome.httpError _ _ => true
  | _ => false

/-- Server model whose every page request raises HTTP 500. -/
def srvHttpError : Nat → PageResult := fun _ => PageResult.httpError 500 "server exploded"

/-- A listing of two pages, each with 2 entries, reporting 3 entries in
total: pagination must consume exactly pages 1 and 2. -/
def srvTwoPages : Nat → PageResult :=
  fun p =>
    if p = 1 then PageResult.success "page one" 2 3
    else if p = 2 then PageResult.success "page two" 2 3
    else PageResult.httpError 404 "no such page"

/-- A listing whose first page reports a total of 0 entries. -/
def srvEmptyListing : Nat → PageResult :=
  fun p =>
    if p = 1 then PageResult.success "empty listing page" 0 0
    else PageResult.httpError 404 "no such page"

/-- A concrete executable time toolkit: instants are string lengths,
UNIX timestamps double them, rendering is decimal. -/
def tkWitness : TimeToolkit :=
  { str_to_datetime := fun s => (s.length : Int)
    timestamp := fun d => d * 2
    render := fun n => toString n }

/-- A concrete crate item (no `num_downloads` key). -/
def itemCrate : Item :=
  [("id", Value.int 7), ("updated_at", Value.str "2016-01-01")]

/-- A concrete summary item (has a `num_downloads` key). -/
def itemSummary : Item :=
  [("num_downloads", Value.int 5), ("fetched_on", Value.str "2016-02-02T10:20:30")]

/-- A concrete executable JSON decoder recognizing one body. -/
def jsonLoadsWitness : String → Option Item :=
  fun b => if b = "summary body" then some [("num_downloads", Value.int 99)] else none

/-! ## Helper lemmas for the retry loop -/

/-- Running the retry loop from counter `r` with `m` guarded iterations
left: if the first `k` attempts fail with connection errors and attempt
`k` (0-based, i.e. the `k+1`-st request) delivers a response, then `k+1`
requests are issued, the sleeps are `sleep_time * r, sleep_time * (r+1),
..., sleep_time * (r+k-1)`, and the outcome is `raise_for_status` of the
delivered response. -/
theorem send_request_go_fail_then_response
    (s : Nat) (tr : Nat → AttemptResult) :
    ∀ (k r m st : Nat) (b : String), k < m →
    (∀ i, i < k → tr (r + i) = AttemptResult.connError) →
    tr (r + k) = AttemptResult.response st b →
    send_request_go s tr r m =
      ⟨k + 1, (List.range' r k).map (fun i => s * i), raise_for_status st b⟩ := by
  intro k
  induction k with
  | zero =>
    intro r m st b hk _ hresp
    obtain ⟨m', rfl⟩ : ∃ m', m = m' + 1 := ⟨m - 1, by omega⟩
    simp only [send_request_go]
    rw [show r + 0 = r from rfl] at hresp
    rw [hresp]
    simp [List.range']
  | succ k ih =>
    intro r m st b hk hfail hresp
    obtain ⟨m', rfl⟩ : ∃ m', m = m' + 1 := ⟨m - 1, by omega⟩
    have h0 : tr r = AttemptResult.connError := by
      have := hfail 0 (Nat.succ_pos k)
      simpa using this
    simp only [send_request_go, h0]
    have hrest := ih (r + 1) m' st b (by omega)
      (fun i hi => by
        have := hfail (i + 1) (by omega)
        simpa [Nat.add_assoc, Nat.add_comm 1 i] using this)
      (by
        have : r + 1 + k = r + (k + 1) := by omega
        rw [this, hresp])
    rw [hrest, List.range'_succ, List.map_cons]

/-- Running the retry loop from counter `r` with `m` guarded iterations
left: if every one of those `m` attempts fails with a connection error,
exactly `m` requests are issued, the sleeps are `sleep_time * r, ...,
sleep_time * (r+m-1)`, and then line 295 runs with `r` unassigned. -/
theorem send_request_go_all_fail
    (s : Nat) (tr : Nat → AttemptResult) :
    ∀ (m r : Nat),
    (∀ i, i < m → tr (r + i) = AttemptResult.connError) →
    send_request_go s tr r m =
      ⟨m, (List.range' r m).map (fun i => s * i), SendOutcome.unboundLocalError⟩ := by
  intro m
  induction m with
  | zero =>
    intro r _
    simp [send_request_go, List.range']
  | succ m ih =>
    intro r hfail
    have h0 : tr r = AttemptResult.connError := by
      have := hfail 0 (Nat.succ_pos m)
      simpa using this
    simp only [send_request_go, h0]
    have hrest := ih (r + 1)
      (fun i hi => by
        have := hfail (i + 1) (by omega)
        simpa [Nat.add_assoc, Nat.add_comm 1 i] using this)
    rw [hrest, List.range'_succ, List.map_cons]

/-! ## Claim C1 -/

/-- Claim C1 is false as stated: with `sleep_time = 300` and two
connection failures followed by a success, `__send_request` does make
exactly 3 attempts and return the successful body, but it sleeps
`300 * 0 = 0` then `300 * 1 = 300` seconds between them — not
`300 * 1 = 300` then `300 * 2 = 600` as the claim says — because line 292
sleeps `sleep_time * retries` before line 293 increments `retries`. -/
theorem claim_c1_counterexample :
    send_request 300 trTwoFailures = ⟨3, [0, 300], SendOutcome.ok "payload"⟩ ∧
    send_request 300 trTwoFailures ≠ ⟨3, [300, 600], SendOutcome.ok "payload"⟩ := by
  decide

/-- Claim C1 amended: on consecutive connection-level failures the client
retries with linear backoff, sleeping `sleep_time * (attemptNumber - 1)`
seconds before each retry (0 seconds before the first retry, `sleep_time`
before the second, and so on); on `k < 5` connection failures followed by
a success, exactly `k + 1` attempts are made, the sleeps between them are
`sleep_time * 0, ..., sleep_time * (k - 1)`, and the successful response
body is returned. -/
theorem claim_c1_amended (s : Nat) (tr : Nat → AttemptResult) (k : Nat) (b : String)
    (hk : k < MAX_RETRIES)
    (hfail : ∀ i, i < k → tr i = AttemptResult.connError)
    (hresp : tr k = AttemptResult.response 200 b) :
    send_request s tr =
      ⟨k + 1, (List.range k).map (fun i => s * i), SendOutcome.ok b⟩ := by
  have h := send_request_go_fail_then_response s tr k 0 MAX_RETRIES 200 b hk
    (fun i hi => by simpa using hfail i hi) (by simpa using hresp)
  rw [send_request, h, List.range_eq_range']
  simp [raise_for_status]

/-- The amended claim C1 instantiated: its hypotheses hold for the
two-failures transport and the conclusion evaluates as computed. -/
theorem claim_c1_witness :
    (2 : Nat) < MAX_RETRIES ∧
    trTwoFailures 2 = AttemptResult.response 200 "payload" ∧
    send_request 300 trTwoFailures = ⟨3, [0, 300], SendOutcome.ok "payload"⟩ := by
  refine ⟨by decide, by decide, ?_⟩
  have h := claim_c1_amended 300 trTwoFailures 2 "payload" (by decide)
    (fun i hi => by unfold trTwoFailures; rw [if_pos hi]) (by decide)
  rw [h]
  decide

/-! ## Claim C2 -/

/-- Claim C2 is false as stated: when every attempt fails with a
connection error, the loop makes exactly its 5 guarded attempts and then
exits; no 6th, unguarded request is issued (the attempt count is 5, not
6), and what follows is line 295 running with `r` never assigned — an
`UnboundLocalError` — not a propagating transport failure. -/
theorem claim_c2_counterexample :
    send_request 300 trAllFailures =
      ⟨5, [0, 300, 600, 900, 1200], SendOutcome.unboundLocalError⟩ ∧
    (send_request 300 trAllFailures).attempts ≠ 6 ∧
    (send_request 300 trAllFailures).outcome ≠ SendOutcome.connectionFailure := by
  decide

/-- Claim C2 amended: if a connection-level failure is caught on each of
the 5 guarded attempts, the client issues no further request; exactly 5
attempts are made in total, the sleeps are `sleep_time * 0, ...,
sleep_time * 4`, and the call then fails by using the never-assigned
response variable (an `UnboundLocalError`), not by propagating a
transport error. -/
theorem claim_c2_amended (s : Nat) (tr : Nat → AttemptResult)
    (hfail : ∀ i, i < MAX_RETRIES → tr i = AttemptResult.connError) :
    send_request s tr =
      ⟨MAX_RETRIES, (List.range MAX_RETRIES).map (fun i => s * i),
        SendOutcome.unboundLocalError⟩ := by
  have h := send_request_go_all_fail s tr MAX_RETRIES 0
    (fun i hi => by simpa using hfail i hi)
  rw [send_request, h, List.range_eq_range']

/-- The amended claim C2 instantiated on the all-failures transport. -/
theorem claim_c2_witness :
    trAllFailures 0 = AttemptResult.connError ∧
    send_request 300 trAllFailures =
      ⟨MAX_RETRIES, [0, 300, 600, 900, 1200], SendOutcome.unboundLocalError⟩ := by
  refine ⟨rfl, ?_⟩
  have h := claim_c2_amended 300 trAllFailures (fun i _ => rfl)
  rw [h]
  decide

/-! ## Claim C3 -/

/-- Claim C3 is false as stated in two respects, each at a concrete
input.  For the status family it names: an HTTP 304 response is non-2xx,
yet `raise_for_status` raises only for statuses in [400, 600), so the
call raises no `HttpError` at all — it returns the response body as a
success (it is also not retried).  For the logging it asserts of every
request: a `crate()` resource request receiving an HTTP 500 re-raises
`HttpError` immediately, but nothing is logged together with the
response body on that path — only the pagination path (`__fetch_items`
lines 329-331) logs the body. -/
theorem claim_c3_counterexample :
    ((304 < 200 ∨ 300 ≤ 304) ∧
      send_request 300 trNotModified = ⟨1, [], SendOutcome.ok "cached body"⟩ ∧
      is_http_error (send_request 300 trNotModified).outcome = false) ∧
    ((crate_call 300 trServerError).send.outcome =
        SendOutcome.httpError 500 "server error body" ∧
      (crate_call 300 trServerError).errorLog = []) := by
  decide

/-- Claim C3 amended: for every request that receives an HTTP error
status (4xx or 5xx), the request is not retried: the error is re-raised
immediately as an `HttpError` carrying the response body; in the
pagination path it is first logged together with the response body,
while a direct resource call re-raises it with nothing logged; and this
path is distinct from connection-level failures, which are retried. -/
theorem claim_c3_amended :
    (∀ (s st : Nat) (tr : Nat → AttemptResult) (b : String),
        400 ≤ st → st < 600 → tr 0 = AttemptResult.response st b →
        send_request s tr = ⟨1, [], SendOutcome.httpError st b⟩) ∧
    (∀ (srv : Nat → PageResult) (fuel page st : Nat) (b : String),
        srv page = PageResult.httpError st b → 1 ≤ fuel →
        fetch_items srv fuel page =
          ⟨[page], [], [b], FetchItemsOutcome.raised st b⟩) ∧
    (∀ (s st : Nat) (tr : Nat → AttemptResult) (b : String),
        400 ≤ st → st < 600 → tr 0 = AttemptResult.response st b →
        crate_call s tr = ⟨⟨1, [], SendOutcome.httpError st b⟩, []⟩) ∧
    (∀ (s : Nat) (tr : Nat → AttemptResult) (b : String),
        tr 0 = AttemptResult.connError → tr 1 = AttemptResult.response 200 b →
        send_request s tr = ⟨2, [0], SendOutcome.ok b⟩) := by
  have hsend : ∀ (s st : Nat) (tr : Nat → AttemptResult) (b : String),
      400 ≤ st → st < 600 → tr 0 = AttemptResult.response st b →
      send_request s tr = ⟨1, [], SendOutcome.httpError st b⟩ := by
    intro s st tr b h4 h6 h0
    have h := send_request_go_fail_then_response s tr 0 0 MAX_RETRIES st b (by decide)
      (fun i hi => absurd hi (Nat.not_lt_zero i)) (by simpa using h0)
    rw [send_request, h]
    simp [List.range', raise_for_status, if_pos (And.intro h4 h6)]
  refine ⟨hsend, ?_, ?_, ?_⟩
  · intro srv fuel page st b hsrv hfuel
    obtain ⟨f, rfl⟩ : ∃ f, fuel = f + 1 := ⟨fuel - 1, by omega⟩
    simp [fetch_items, fetch_items_go, hsrv]
  · intro s st tr b h4 h6 h0
    rw [crate_call, hsend s st tr b h4 h6 h0]
  · intro s tr b h0 h1
    have h := send_request_go_fail_then_response s tr 1 0 MAX_RETRIES 200 b (by decide)
      (fun i hi => by
        have : i = 0 := by omega
        simpa [this] using h0)
      (by simpa using h1)
    rw [send_request, h]
    simp [List.range', raise_for_status]

/-- The amended claim C3 instantiated on a 500 response (immediate
`HttpError` carrying the body, one attempt, no sleeps), on a pagination
page request raising 500 (body logged, error re-raised, nothing
yielded), on a direct `crate()` resource request raising 500 (error
re-raised, nothing logged), and on a connection failure followed by
success (retried). -/
theorem claim_c3_witness :
    send_request 300 trServerError =
      ⟨1, [], SendOutcome.httpError 500 "server error body"⟩ ∧
    fetch_items srvHttpError 1 1 =
      ⟨[1], [], ["server exploded"], FetchItemsOutcome.raised 500 "server exploded"⟩ ∧
    crate_call 300 trServerError =
      ⟨⟨1, [], SendOutcome.httpError 500 "server error body"⟩, []⟩ ∧
    send_request 300 trOneFailure = ⟨2, [0], SendOutcome.ok "recovered"⟩ :=
  ⟨claim_c3_amended.1 300 500 trServerError "server error body" (by decide) (by decide) rfl,
   claim_c3_amended.2.1 srvHttpError 1 1 500 "server exploded" rfl (by decide),
   claim_c3_amended.2.2.1 300 500 trServerError "server error body" (by decide) (by decide) rfl,
   claim_c3_amended.2.2.2 300 trOneFailure "recovered" rfl rfl⟩

/-! ## Helper lemmas for the listing-enrichment traversal -/

/-- The inner entry loop of `__fetch_crates` is exactly filter (keep the
entries whose parsed `updated_at` is `≥ d`), then enrich and yield each
kept entry in order; its calls are the per-entry enrichment calls in
order. -/
theorem fetch_crates_entries_eq (tk : TimeToolkit) (srv : CratesServer) (d : Int) :
    ∀ l : List CrateEntry,
    fetch_crates_entries tk srv d l =
      ⟨((l.filter fun e => decide (d ≤ tk.str_to_datetime e.updated_at)).map
          (fun e => enrichment_calls e.id)).flatten,
       (l.filter fun e => decide (d ≤ tk.str_to_datetime e.updated_at)).map
          (fun e => fetch_crate_enriched srv e.id)⟩ := by
  intro l
  induction l with
  | nil => rfl
  | cons e rest ih =>
    by_cases h : tk.str_to_datetime e.updated_at < d
    · have hd : decide (d ≤ tk.str_to_datetime e.updated_at) = false := by
        simp only [decide_eq_false_iff_not]
        exact not_le.mpr h
      simp [fetch_crates_entries, if_pos h, ih, List.filter_cons, hd]
    · have hd : decide (d ≤ tk.str_to_datetime e.updated_at) = true := by
        simp only [decide_eq_true_eq]
        exact not_lt.mp h
      simp [fetch_crates_entries, if_neg h, ih, List.filter_cons, hd]

/-- The page loop of `__fetch_crates` concatenates the per-page traces,
so the whole traversal is the entry characterization over the
concatenation of the decoded pages. -/
theorem fetch_crates_pages_eq (tk : TimeToolkit) (srv : CratesServer) (d : Int) :
    ∀ pages : List (List CrateEntry),
    fetch_crates_pages tk srv d pages =
      ⟨((pages.flatten.filter fun e => decide (d ≤ tk.str_to_datetime e.updated_at)).map
          (fun e => enrichment_calls e.id)).flatten,
       (pages.flatten.filter fun e => decide (d ≤ tk.str_to_datetime e.updated_at)).map
          (fun e => fetch_crate_enriched srv e.id)⟩ := by
  intro pages
  induction pages with
  | nil => rfl
  | cons pg rest ih =>
    simp [fetch_crates_pages, fetch_crates_entries_eq, ih,
      List.filter_append, List.map_append, List.flatten_append]

/-! ## Claim C4 -/

/-- Claim C4: in listing mode, the traversal is characterized exactly by
the inclusive-lower-bound filter against the UTC-normalized `from_date`:
the enrichment calls issued are precisely those of the entries whose
parsed `updated_at` is `≥ from_date` (so a skipped entry — one strictly
earlier — contributes no resource or sub-resource fetch at all), and the
yielded records are precisely the enriched records of those same entries,
in order. -/
theorem claim_c4 (tk : TimeToolkit) (srv : CratesServer) (from_date : Int)
    (pages : List (List CrateEntry)) :
    fetch_crates tk srv from_date pages =
      ⟨((pages.flatten.filter fun e =>
            decide (datetime_to_utc from_date ≤ tk.str_to_datetime e.updated_at)).map
          (fun e => enrichment_calls e.id)).flatten,
       (pages.flatten.filter fun e =>
            decide (datetime_to_utc from_date ≤ tk.str_to_datetime e.updated_at)).map
          (fun e => fetch_crate_enriched srv e.id)⟩ := by
  rw [fetch_crates, fetch_crates_pages_eq]

/-! ## Helper lemmas for the pagination loop -/

/-- Splitting off the first summand of a shifted range sum. -/
theorem sum_shift (N : Nat → Nat) (p j : Nat) :
    (∑ i ∈ Finset.range (j + 1), N (p + i)) =
      N p + ∑ i ∈ Finset.range j, N (p + 1 + i) := by
  rw [Finset.sum_range_succ']
  simp only [Nat.add_zero]
  rw [Nat.add_comm]
  congr 1
  apply Finset.sum_congr rfl
  intro i _
  congr 1
  omega

/-- The first loop iteration of `__fetch_items` sets `total_crates` from
the first page, so running it with the initial falsy `total_crates = 0`
coincides with running it with that total already installed. -/
theorem fetch_items_go_first_total (srv : Nat → PageResult) (f p parsed : Nat)
    (b : String) (n t : Nat) (h : srv p = PageResult.success b n t) :
    fetch_items_go srv (f + 1) p parsed 0 = fetch_items_go srv (f + 1) p parsed t := by
  simp only [fetch_items_go, h]
  simp [ite_self]

/-- Steady phase of the pagination loop: with `total_crates` already the
nonzero `tot`, if the next `k` pages all succeed, the cumulative entry
count stays below `tot` for every proper prefix, and reaches `tot` after
`k` pages, then exactly pages `p, p+1, ..., p+k-1` are requested and
their bodies yielded, in order, and the traversal stops. -/
theorem fetch_items_go_steady (srv : Nat → PageResult) (B : Nat → String)
    (N : Nat → Nat) (T : Nat → Nat) (tot : Nat) (htot : tot ≠ 0) :
    ∀ (k p parsed fuel : Nat), 1 ≤ k → k ≤ fuel →
    (∀ i, i < k → srv (p + i) = PageResult.success (B (p + i)) (N (p + i)) (T (p + i))) →
    (∀ j, 1 ≤ j → j < k → parsed + (∑ i ∈ Finset.range j, N (p + i)) < tot) →
    tot ≤ parsed + (∑ i ∈ Finset.range k, N (p + i)) →
    fetch_items_go srv fuel p parsed tot =
      ⟨List.range' p k, (List.range' p k).map B, [], FetchItemsOutcome.done⟩ := by
  intro k
  induction k with
  | zero => intro p parsed fuel hk; omega
  | succ k ih =>
    intro p parsed fuel _ hfuel hsrv hcont hstop
    obtain ⟨f, rfl⟩ : ∃ f, fuel = f + 1 := ⟨fuel - 1, by omega⟩
    have hsrv0 : srv p = PageResult.success (B p) (N p) (T p) := by
      simpa using hsrv 0 (Nat.succ_pos k)
    simp only [fetch_items_go, hsrv0]
    rw [if_neg htot]
    cases k with
    | zero =>
      have hN : (∑ i ∈ Finset.range 1, N (p + i)) = N p := by
        simp
      rw [hN] at hstop
      rw [if_pos hstop]
      simp [List.range']
    | succ k' =>
      have hlt : ¬ tot ≤ parsed + N p := by
        have h1 := hcont 1 (le_refl 1) (by omega)
        simp only [Finset.sum_range_one, Nat.add_zero] at h1
        omega
      rw [if_neg hlt]
      have hrest := ih (p + 1) (parsed + N p) f (Nat.succ_pos k') (by omega)
        (fun i hi => by
          have := hsrv (i + 1) (by omega)
          have he : p + (i + 1) = p + 1 + i := by omega
          rw [he] at this
          exact this)
        (fun j hj1 hj2 => by
          have := hcont (j + 1) (by omega) (by omega)
          rw [sum_shift] at this
          omega)
        (by
          rw [sum_shift] at hstop
          omega)
      rw [hrest]
      simp [List.range'_succ]

/-! ## Claim C5 -/

/-- Claim C5: the listing pagination yields one raw page body per HTTP
call, advancing the page number by 1 each iteration (pages `1, 2, ...,
k`), and terminates exactly at the first `k` at which the cumulative
count of listed entries reaches or exceeds the total reported by the
first page's metadata (`T 1`); no page beyond `k` is requested. -/
theorem claim_c5 (srv : Nat → PageResult) (B : Nat → String) (N T : Nat → Nat)
    (k fuel : Nat) (hk : 1 ≤ k) (hfuel : k ≤ fuel)
    (hsrv : ∀ i, 1 ≤ i → i ≤ k → srv i = PageResult.success (B i) (N i) (T i))
    (hstop : T 1 ≤ ∑ i ∈ Finset.range k, N (1 + i))
    (hcont : ∀ j, 1 ≤ j → j < k → (∑ i ∈ Finset.range j, N (1 + i)) < T 1) :
    fetch_items srv fuel 1 =
      ⟨List.range' 1 k, (List.range' 1 k).map B, [], FetchItemsOutcome.done⟩ := by
  obtain ⟨f, rfl⟩ : ∃ f, fuel = f + 1 := ⟨fuel - 1, by omega⟩
  have hsrv1 : srv 1 = PageResult.success (B 1) (N 1) (T 1) := hsrv 1 (le_refl 1) hk
  by_cases hT : T 1 = 0
  · have hk1 : k = 1 := by
      by_contra hne
      have := hcont 1 (le_refl 1) (by omega)
      omega
    subst hk1
    have hN : T 1 ≤ N 1 := by simpa using hstop
    rw [fetch_items]
    simp [fetch_items_go, hsrv1, hN, List.range']
  · rw [fetch_items, fetch_items_go_first_total srv f 1 0 (B 1) (N 1) (T 1) hsrv1]
    exact fetch_items_go_steady srv B N T (T 1) hT k 1 0 (f + 1) hk (by omega)
      (fun i hi => hsrv (1 + i) (by omega) (by omega))
      (fun j hj1 hj2 => by simpa using hcont j hj1 hj2)
      (by simpa using hstop)

/-- Claim C5 instantiated on the two-page listing: page 1 carries 2 of
the reported 3 entries, so page 2 is requested and yielded, after which
the cumulative count 4 reaches the total 3 and no page 3 is requested. -/
theorem claim_c5_witness :
    fetch_items srvTwoPages 2 1 =
      ⟨[1, 2], ["page one", "page two"], [], FetchItemsOutcome.done⟩ := by
  have h := claim_c5 srvTwoPages
      (fun p => if p = 1 then "page one" else "page two") (fun _ => 2) (fun _ => 3)
      2 2 (by decide) (by decide)
      (fun i h1 h2 => by interval_cases i <;> rfl)
      (by decide)
      (fun j h1 h2 => by
        have hj : j = 1 := by omega
        subst hj
        decide)
  rw [h]
  decide

/-! ## Claim C10 -/

/-- Claim C10: each raw page body is yielded before the termination
condition is evaluated, so the first page's body is always the first
yield; in particular, when the first page's entry count already reaches
or exceeds its reported total (e.g. a listing reporting total 0), that
one page is still requested and yielded, and the traversal then stops. -/
theorem claim_c10 (srv : Nat → PageResult) (fuel : Nat) (b : String) (n t : Nat)
    (hsrv : srv 1 = PageResult.success b n t) (hfuel : 1 ≤ fuel) :
    (fetch_items srv fuel 1).yielded.head? = some b ∧
    (t ≤ n → fetch_items srv fuel 1 = ⟨[1], [b], [], FetchItemsOutcome.done⟩) := by
  obtain ⟨f, rfl⟩ : ∃ f, fuel = f + 1 := ⟨fuel - 1, by omega⟩
  constructor
  · rw [fetch_items]
    by_cases h : t ≤ n <;> simp [fetch_items_go, hsrv, h]
  · intro h
    rw [fetch_items]
    simp [fetch_items_go, hsrv, h]

/-- Claim C10 instantiated on a listing whose first page reports total 0:
exactly that one page body is yielded. -/
theorem claim_c10_witness :
    (fetch_items srvEmptyListing 1 1).yielded.head? = some "empty listing page" ∧
    fetch_items srvEmptyListing 1 1 =
      ⟨[1], ["empty listing page"], [], FetchItemsOutcome.done⟩ := by
  have h := claim_c10 srvEmptyListing 1 "empty listing page" 0 0 rfl (by decide)
  exact ⟨h.1, h.2 (by decide)⟩

/-! ## Claim C6 -/

/-- Claim C6: category classification is a pure structural test — a
record containing the `num_downloads` key is classified `summary`, and a
record without it is classified `crates`. -/
theorem claim_c6 (item : Item) :
    (hasKey item "num_downloads" = true → metadata_category item = SUMMARY_CATEGORY) ∧
    (hasKey item "num_downloads" = false → metadata_category item = CRATES_CATEGORY) := by
  constructor <;> intro h <;> simp [metadata_category, h]

/-- Claim C6 instantiated on one record of each family. -/
theorem claim_c6_witness :
    hasKey [("num_downloads", Value.int 1000)] "num_downloads" = true ∧
    metadata_category [("num_downloads", Value.int 1000)] = SUMMARY_CATEGORY ∧
    hasKey [("name", Value.str "serde")] "num_downloads" = false ∧
    metadata_category [("name", Value.str "serde")] = CRATES_CATEGORY :=
  ⟨by decide, (claim_c6 _).1 (by decide), by decide, (claim_c6 _).2 (by decide)⟩

/-! ## Claim C7 -/

/-- Claim C7: the extraction contracts follow the structural category
uniformly.  For a crate record, `metadata_id` is the stringified `id`
field and `metadata_updated_on` is the UNIX timestamp of the parsed
`updated_at`; for a summary record, `metadata_id` is the string form of
the UNIX timestamp parsed from `fetched_on` and `metadata_updated_on` is
that timestamp. -/
theorem claim_c7 (tk : TimeToolkit) (item : Item) :
    (metadata_category item = CRATES_CATEGORY →
      metadata_id tk item = (item.lookup "id").map pyStr ∧
      (∀ u, item.lookup "updated_at" = some (Value.str u) →
        metadata_updated_on tk item = some (tk.timestamp (tk.str_to_datetime u)))) ∧
    (metadata_category item = SUMMARY_CATEGORY →
      (∀ s, item.lookup "fetched_on" = some (Value.str s) →
        metadata_id tk item = some (tk.render (tk.timestamp (tk.str_to_datetime s))) ∧
        metadata_updated_on tk item = some (tk.timestamp (tk.str_to_datetime s)))) := by
  constructor
  · intro h
    refine ⟨by simp [metadata_id, h], ?_⟩
    intro u hu
    simp [metadata_updated_on, h, hu]
  · intro h
    intro s hs
    have hne : ¬ metadata_category item = CRATES_CATEGORY := by
      rw [h]
      decide
    constructor
    · simp [metadata_id, hne, hs]
    · simp [metadata_updated_on, hne, hs]

/-- Claim C7 instantiated on one record of each family with the concrete
executable toolkit (instants are string lengths, timestamps double them):
`"2016-01-01"` parses to 10 and has timestamp 20; `"2016-02-02T10:20:30"`
parses to 19 and has timestamp 38, rendered `"38"`. -/
theorem claim_c7_witness :
    metadata_category itemCrate = CRATES_CATEGORY ∧
    metadata_id tkWitness itemCrate = some "7" ∧
    metadata_updated_on tkWitness itemCrate = some 20 ∧
    metadata_category itemSummary = SUMMARY_CATEGORY ∧
    metadata_id tkWitness itemSummary = some "38" ∧
    metadata_updated_on tkWitness itemSummary = some 38 := by
  have h1 := (claim_c7 tkWitness itemCrate).1 (by decide)
  have h2 := (claim_c7 tkWitness itemSummary).2 (by decide) "2016-02-02T10:20:30" (by decide)
  refine ⟨by decide, ?_, ?_, by decide, ?_, ?_⟩
  · rw [h1.1]
    decide
  · rw [h1.2 "2016-01-01" (by decide)]
    decide
  · rw [h2.1]
    decide
  · rw [h2.2]
    decide

/-! ## Claim C8 -/

/-- Claim C8: a summary-mode invocation fetches the summary resource
exactly once, decodes it, attaches a `fetched_on` field equal to the
rendered current UTC wall-clock time, yields exactly that one record, and
terminates. -/
theorem claim_c8 (jsonLoads : String → Option Item) (nowStr body : String) (s : Item)
    (h : jsonLoads body = some s) :
    fetch_summary jsonLoads nowStr body =
      ⟨1, some [setKey s "fetched_on" (Value.str nowStr)]⟩ ∧
    (setKey s "fetched_on" (Value.str nowStr)).lookup "fetched_on" =
      some (Value.str nowStr) := by
  constructor
  · simp [fetch_summary, h]
  · simp [setKey, List.lookup]

/-- Claim C8 instantiated on the concrete decoder and a fixed clock
reading. -/
theorem claim_c8_witness :
    jsonLoadsWitness "summary body" = some [("num_downloads", Value.int 99)] ∧
    fetch_summary jsonLoadsWitness "2016-01-01 00:00:00+00:00" "summary body" =
      ⟨1, some [setKey [("num_downloads", Value.int 99)] "fetched_on"
        (Value.str "2016-01-01 00:00:00+00:00")]⟩ :=
  ⟨by decide,
   (claim_c8 jsonLoadsWitness "2016-01-01 00:00:00+00:00" "summary body"
      [("num_downloads", Value.int 99)] (by decide)).1⟩

/-! ## Claim C9 -/

/-- Claim C9: only the exact category string `"crates"` dispatches to the
listing-enrichment mode; every other string — `"summary"` or any
arbitrary unrecognized value — dispatches to the summary snapshot
mode. -/
theorem claim_c9 :
    fetch_dispatch CRATES_CATEGORY = FetchMode.cratesMode ∧
    ∀ c : String, c ≠ CRATES_CATEGORY → fetch_dispatch c = FetchMode.summaryMode := by
  refine ⟨rfl, ?_⟩
  intro c h
  simp [fetch_dispatch, h]

/-- Claim C9 instantiated at `"summary"` and at an arbitrary
unrecognized category string. -/
theorem claim_c9_witness :
    ("summary" : String) ≠ CRATES_CATEGORY ∧
    fetch_dispatch "summary" = FetchMode.summaryMode ∧
    ("bogus-category" : String) ≠ CRATES_CATEGORY ∧
    fetch_dispatch "bogus-category" = FetchMode.summaryMode :=
  ⟨by decide, claim_c9.2 "summary" (by decide),
   by decide, claim_c9.2 "bogus-category" (by decide)⟩
